import Mathlib

/-!
Shallow embedding of the ink! contract `vesting_scheduler` (src/vesting_scheduler/lib.rs).

Machine integers are modelled as `Nat` with explicit saturation where the source
saturates: `Balance` is `u128` (the ink `DefaultEnvironment` balance type), so
`saturating_mul`/`saturating_add` clamp at `U128_MAX`; `u64`/`u128`
`saturating_sub` coincides with truncated `Nat` subtraction.  The storage
`Mapping<H160, VestingSchedule>` is modelled as a function from addresses to
`Option VestingSchedule`; `H160` addresses are opaque keys modelled as `Nat`.
Contract messages that mutate state are modelled as functions returning the
result value together with the post-state of the map.
-/

namespace VestingScheduler

/-- Largest value of `u128`, the ink `DefaultEnvironment` balance type
(the `Balance` alias in the source). -/
def U128_MAX : Nat := 2 ^ 128 - 1

/-- Beneficiary address (`H160` in the source), modelled as an opaque decidable key. -/
abbrev Addr := Nat

/-- `struct DateTime` (lib.rs lines 11-18); the numeric fields are `u32`/`u8` in
the source, all represented as `Nat`. -/
structure DateTime where
  year : Nat
  month : Nat
  day : Nat
  hour : Nat
  minute : Nat
  second : Nat
deriving DecidableEq, Repr

/-- `struct VestingSchedule` (lib.rs lines 23-32). -/
structure VestingSchedule where
  total_amount : Nat
  claimed_amount : Nat
  start_time : Nat
  end_time : Nat
deriving DecidableEq, Repr

/-- `enum Error` (lib.rs lines 70-81). -/
inductive Error where
  | Unauthorized
  | InvalidTimeRange
  | NoVestingSchedule
  | VestingNotStarted
  | NoTokensAvailable
deriving DecidableEq, Repr

/-- The schedule store: `Mapping<H160, VestingSchedule>`. -/
abbrev Store := Addr → Option VestingSchedule

/-- `Mapping::insert` overwrites the entry at the key. -/
def Store.insert (store : Store) (key : Addr) (v : VestingSchedule) : Store :=
  fun a => if a = key then some v else store a

/-- `fn is_leap_year` (lib.rs lines 235-237). -/
def is_leap_year (year : Nat) : Bool :=
  (year % 4 == 0 && year % 100 != 0) || (year % 400 == 0)

/-- The year-resolution `while` loop of `timestamp_to_datetime`
(lib.rs lines 212-220), with an explicit fuel argument for structural
recursion.  Each executed iteration consumes one unit of fuel and removes at
least 365 days, so calling it with `fuel = remaining_days` (as
`resolve_year` does) gives the loop enough fuel for every input; the
fuel-exhausted branch is unreachable.  The source subtracts with a plain
(non-saturating) `u64` `-=` under the guard `remaining_days >= 365`; when the
current year is a leap year and exactly 365 days remain, that subtraction
`365 - 366` underflows `u64` — not representable, a panic under Rust overflow
checks — which is modelled by returning `none`. -/
def resolve_year_go : Nat → Nat → Nat → Option (Nat × Nat)
  | 0, year, remaining_days => some (year, remaining_days)
  | fuel + 1, year, remaining_days =>
    if remaining_days ≥ 365 then
      let days_in_year := if is_leap_year year then 366 else 365
      if remaining_days < days_in_year then
        none
      else
        resolve_year_go fuel (year + 1) (remaining_days - days_in_year)
    else
      some (year, remaining_days)

/-- The year-resolution loop started at its real entry state: year 1970 and the
total day count. -/
def resolve_year (year : Nat) (remaining_days : Nat) : Option (Nat × Nat) :=
  resolve_year_go remaining_days year remaining_days

/-- The month-scanning `for` loop of `days_to_month_day` (lib.rs lines
249-258): `i` is the 0-based month index, `remaining` the days still to place;
`remaining.saturating_sub(days)` is `Nat` subtraction.  Falls back to
December 31 when the table is exhausted. -/
def month_day_loop : List Nat → Nat → Nat → Nat × Nat
  | [], _, _ => (12, 31)
  | days :: rest, i, remaining =>
    if remaining < days then
      (i + 1, remaining + 1)
    else
      month_day_loop rest (i + 1) (remaining - days)

/-- `fn days_to_month_day` (lib.rs lines 241-259). -/
def days_to_month_day (day_of_year : Nat) (year : Nat) : Nat × Nat :=
  let days_in_months :=
    if is_leap_year year then
      [31, 29, 31, 30, 31, 30, 31, 31, 30, 31, 30, 31]
    else
      [31, 28, 31, 30, 31, 30, 31, 31, 30, 31, 30, 31]
  month_day_loop days_in_months 0 day_of_year

/-- `fn timestamp_to_datetime` (lib.rs lines 199-233).  Returns `none` exactly
when the year loop's unchecked `u64` subtraction underflows (see
`resolve_year_go`); on every other input it returns the `DateTime` the source
builds. -/
def timestamp_to_datetime (timestamp_ms : Nat) : Option DateTime :=
  let timestamp := timestamp_ms / 1000
  let second := timestamp % 60
  let minutes_total := timestamp / 60
  let minute := minutes_total % 60
  let hours_total := minutes_total / 60
  let hour := hours_total % 24
  let days_total := hours_total / 24
  match resolve_year 1970 days_total with
  | none => none
  | some (year, remaining_days) =>
    let (month, day) := days_to_month_day remaining_days year
    some ⟨year, month, day, hour, minute, second⟩

/-- `fn write_u32` (lib.rs lines 289-294): fills an `n`-byte buffer with the
low `n` decimal digits of `val` in ASCII, least significant digit rightmost. -/
def write_u32 (n : Nat) (val : Nat) : List Nat :=
  match n with
  | 0 => []
  | m + 1 => write_u32 m (val / 10) ++ [48 + val % 10]

/-- `fn write_u8` (lib.rs lines 297-300): two ASCII digits, zero padded. -/
def write_u8 (val : Nat) : List Nat :=
  [48 + val / 10, 48 + val % 10]

/-- `fn format_datetime` (lib.rs lines 263-286): the 19-byte
`YYYY-MM-DD HH:MM:SS` buffer, as the list of its byte values
(45 = `-`, 32 = space, 58 = `:`). -/
def format_datetime (dt : DateTime) : List Nat :=
  write_u32 4 dt.year ++ [45] ++ write_u8 dt.month ++ [45] ++ write_u8 dt.day
    ++ [32] ++ write_u8 dt.hour ++ [58] ++ write_u8 dt.minute ++ [58]
    ++ write_u8 dt.second

/-- `fn calculate_vested_amount` (lib.rs lines 304-327).  `Balance` is `u128`,
so the "widened" domain of the linear branch is again `u128`:
`saturating_mul` clamps the product at `U128_MAX`.  `saturating_sub` on `u64`
is `Nat` subtraction; in the linear branch `duration ≥ 1`, so `saturating_div`
is ordinary division. -/
def calculate_vested_amount (schedule : VestingSchedule) (current_time : Nat) :
    Nat :=
  if current_time < schedule.start_time then
    0
  else if current_time ≥ schedule.end_time then
    schedule.total_amount
  else
    let elapsed := current_time - schedule.start_time
    let duration := schedule.end_time - schedule.start_time
    min (schedule.total_amount * elapsed) U128_MAX / duration

/-- `fn create_vesting_schedule` (lib.rs lines 100-127); the caller and the
stored owner are explicit arguments.  Returns the `Result` together with the
post-state of the schedule map. -/
def create_vesting_schedule (owner caller : Addr) (store : Store)
    (beneficiary : Addr) (total_amount : Nat) (start_time end_time : Nat) :
    Except Error Unit × Store :=
  if caller ≠ owner then
    (Except.error Error.Unauthorized, store)
  else if start_time ≥ end_time then
    (Except.error Error.InvalidTimeRange, store)
  else
    (Except.ok (),
      store.insert beneficiary
        ⟨total_amount, 0, start_time, end_time⟩)

/-- `fn claim_vested` (lib.rs lines 130-170); `caller` and the block timestamp
`current_time` are explicit arguments.  `claimable` uses `u128`
`saturating_sub` (= `Nat` subtraction) and the update uses `u128`
`saturating_add` (clamped at `U128_MAX`). -/
def claim_vested (store : Store) (caller : Addr) (current_time : Nat) :
    Except Error Nat × Store :=
  match store caller with
  | none => (Except.error Error.NoVestingSchedule, store)
  | some schedule =>
    if current_time < schedule.start_time then
      (Except.error Error.VestingNotStarted, store)
    else
      let vested_amount := calculate_vested_amount schedule current_time
      let claimable := vested_amount - schedule.claimed_amount
      if claimable = 0 then
        (Except.error Error.NoTokensAvailable, store)
      else
        let schedule' := { schedule with
          claimed_amount :=
            min (schedule.claimed_amount + claimable) U128_MAX }
        (Except.ok claimable, store.insert caller schedule')

/-- The ledger invariant of the spec: every stored schedule has
`claimed_amount ≤ total_amount`. -/
def ClaimedLeTotal (store : Store) : Prop :=
  ∀ a s, store a = some s → s.claimed_amount ≤ s.total_amount

end VestingScheduler

namespace VestingScheduler

/-! ### Helper lemmas about `calculate_vested_amount` -/

theorem calculate_vested_amount_eq_zero (s : VestingSchedule) (t : Nat)
    (h : t < s.start_time) : calculate_vested_amount s t = 0 := by
  unfold calculate_vested_amount
  rw [if_pos h]

theorem calculate_vested_amount_eq_total (s : VestingSchedule) (t : Nat)
    (h1 : s.start_time ≤ t) (h2 : s.end_time ≤ t) :
    calculate_vested_amount s t = s.total_amount := by
  unfold calculate_vested_amount
  rw [if_neg (by omega), if_pos (by omega)]

theorem calculate_vested_amount_eq_linear (s : VestingSchedule) (t : Nat)
    (h1 : s.start_time ≤ t) (h2 : t < s.end_time) :
    calculate_vested_amount s t =
      min (s.total_amount * (t - s.start_time)) U128_MAX
        / (s.end_time - s.start_time) := by
  unfold calculate_vested_amount
  rw [if_neg (by omega), if_neg (by omega)]

/-- On every input the computed vested amount is at most `total_amount`. -/
theorem calculate_vested_amount_le_total (s : VestingSchedule) (t : Nat) :
    calculate_vested_amount s t ≤ s.total_amount := by
  by_cases h1 : t < s.start_time
  · rw [calculate_vested_amount_eq_zero s t h1]
    exact Nat.zero_le _
  · by_cases h2 : s.end_time ≤ t
    · rw [calculate_vested_amount_eq_total s t (by omega) h2]
    · rw [calculate_vested_amount_eq_linear s t (by omega) (by omega)]
      have hd : 0 < s.end_time - s.start_time := by omega
      calc min (s.total_amount * (t - s.start_time)) U128_MAX
            / (s.end_time - s.start_time)
          ≤ s.total_amount * (t - s.start_time) / (s.end_time - s.start_time) :=
            Nat.div_le_div_right (min_le_left _ _)
        _ ≤ s.total_amount * (s.end_time - s.start_time)
            / (s.end_time - s.start_time) :=
            Nat.div_le_div_right (Nat.mul_le_mul_left _ (by omega))
        _ = s.total_amount := Nat.mul_div_cancel _ hd

/-- The computed vested amount is monotone in the current time. -/
theorem calculate_vested_amount_mono_aux (s : VestingSchedule) {t1 t2 : Nat}
    (h : t1 ≤ t2) :
    calculate_vested_amount s t1 ≤ calculate_vested_amount s t2 := by
  by_cases h1 : t1 < s.start_time
  · rw [calculate_vested_amount_eq_zero s t1 h1]
    exact Nat.zero_le _
  · by_cases h2 : s.end_time ≤ t1
    · rw [calculate_vested_amount_eq_total s t1 (by omega) h2,
        calculate_vested_amount_eq_total s t2 (by omega) (by omega)]
    · by_cases h3 : s.end_time ≤ t2
      · rw [calculate_vested_amount_eq_total s t2 (by omega) h3]
        exact calculate_vested_amount_le_total s t1
      · rw [calculate_vested_amount_eq_linear s t1 (by omega) (by omega),
          calculate_vested_amount_eq_linear s t2 (by omega) (by omega)]
        exact Nat.div_le_div_right
          (min_le_min (Nat.mul_le_mul_left _ (by omega)) le_rfl)

/-- The vested amount does not depend on `claimed_amount`. -/
theorem calculate_vested_amount_claimed_irrel (s : VestingSchedule)
    (x t : Nat) :
    calculate_vested_amount { s with claimed_amount := x } t
      = calculate_vested_amount s t := rfl

/-- Unfolding equation of `claim_vested` when the caller has a schedule. -/
theorem claim_vested_some (store : Store) (caller : Addr) (tnow : Nat)
    (s : VestingSchedule) (hs : store caller = some s) :
    claim_vested store caller tnow =
      if tnow < s.start_time then
        (Except.error Error.VestingNotStarted, store)
      else
        let vested_amount := calculate_vested_amount s tnow
        let claimable := vested_amount - s.claimed_amount
        if claimable = 0 then
          (Except.error Error.NoTokensAvailable, store)
        else
          let schedule' := { s with
            claimed_amount := min (s.claimed_amount + claimable) U128_MAX }
          (Except.ok claimable, store.insert caller schedule') := by
  unfold claim_vested
  rw [hs]

end VestingScheduler

namespace VestingScheduler

/-! ### Claim theorems -/

/-- C1 (corrected): with `Balance = u128` the "widened" domain is only `u128`
and `saturating_mul` clamps, so the exact value
`floor(total_amount * (now - start_time) / (end_time - start_time))` is
returned precisely when the product `total_amount * (now - start_time)` fits
in `u128`; for larger products precision is lost (see the counterexample). -/
theorem calculate_vested_amount_exact (s : VestingSchedule) (tnow : Nat)
    (h1 : s.start_time ≤ tnow) (h2 : tnow < s.end_time)
    (h3 : s.total_amount * (tnow - s.start_time) ≤ U128_MAX) :
    calculate_vested_amount s tnow
      = s.total_amount * (tnow - s.start_time) / (s.end_time - s.start_time) := by
  rw [calculate_vested_amount_eq_linear s tnow h1 h2, min_eq_left h3]

/-- Witness for C1's amended theorem at the spec's own half-vesting example. -/
theorem calculate_vested_amount_exact_witness :
    calculate_vested_amount ⟨1000000, 0, 0, 100⟩ 50
      = 1000000 * (50 - 0) / (100 - 0) :=
  calculate_vested_amount_exact ⟨1000000, 0, 0, 100⟩ 50 (by decide) (by decide)
    (by decide)

/-- C1 counterexample: the schedule `total_amount = 2^127`,
`start_time = 0`, `end_time = 4` at `now = 2` satisfies every hypothesis of
the claim (`start < end`, `start ≤ now < end`, `total_amount` in the balance
range), yet `saturating_mul` clamps `2^127 * 2` at `2^128 - 1` and the result
`2^126 - 1` differs from the exact `floor(2^127 * 2 / 4) = 2^126`. -/
theorem calculate_vested_amount_overflow_cex :
    (0 : Nat) < 4 ∧ 2 ^ 127 ≤ U128_MAX ∧
      calculate_vested_amount ⟨2 ^ 127, 0, 0, 4⟩ 2
        ≠ 2 ^ 127 * (2 - 0) / (4 - 0) := by
  refine ⟨by decide, by decide, by decide⟩

/-- C2 (code_bug): the year-resolution loop of `timestamp_to_datetime` does a
plain (non-saturating) `u64` subtraction `remaining_days -= days_in_year`
guarded only by `remaining_days >= 365`; at the timestamp 94608000000 ms
(1972-12-31 00:00:00 UTC, day 1095 since the epoch) it reaches
`remaining_days = 365` in the leap year 1972 and computes `365 - 366`, which
underflows `u64` instead of saturating — the conversion does not return a
civil date, contradicting the claim that every arithmetic step saturates and
every timestamp converts. -/
theorem timestamp_to_datetime_underflow :
    timestamp_to_datetime 94608000000 = none := by decide

/-- C3 (code_bug): for day count 1095 (December 31 of the leap year 1972) the
claim requires the year loop to stop at year 1972 with day-of-year 365, but
the loop's guard `remaining_days >= 365` makes it iterate once more and
underflow on `365 - 366`; it never produces the pair `(1972, 365)`. -/
theorem resolve_year_dec31_leap :
    resolve_year 1970 1095 = none ∧ is_leap_year 1972 = true := by decide

/-- C5: for every schedule with `start_time < end_time` and all times
`t1 ≤ t2` the vested-amount computation is monotone:
`calculate_vested_amount s t1 ≤ calculate_vested_amount s t2`. -/
theorem calculate_vested_amount_mono (s : VestingSchedule)
    (_hrange : s.start_time < s.end_time) (t1 t2 : Nat) (h : t1 ≤ t2) :
    calculate_vested_amount s t1 ≤ calculate_vested_amount s t2 :=
  calculate_vested_amount_mono_aux s h

/-- Witness for C5 at a concrete schedule and pair of times. -/
theorem calculate_vested_amount_mono_witness :
    calculate_vested_amount ⟨1000000, 0, 0, 100⟩ 30
      ≤ calculate_vested_amount ⟨1000000, 0, 0, 100⟩ 60 :=
  calculate_vested_amount_mono ⟨1000000, 0, 0, 100⟩ (by decide) 30 60 (by decide)

/-- C8: converting 1729512000000 ms and formatting yields exactly the 19
ASCII bytes of `"2024-10-21 12:00:00"`
(`[50,48,50,52]` = `2024`, `45` = `-`, `49,48` = `10`, `50,49` = `21`,
`32` = space, `49,50` = `12`, `58` = `:`, `48,48` = `00`). -/
theorem timestamp_roundtrip_20241021 :
    (timestamp_to_datetime 1729512000000).map format_datetime
      = some [50, 48, 50, 52, 45, 49, 48, 45, 50, 49, 32,
              49, 50, 58, 48, 48, 58, 48, 48] := by
  decide

end VestingScheduler


namespace VestingScheduler

/-- C4: starting from any store in which every schedule satisfies
`claimed_amount ≤ total_amount`, the store after any
`create_vesting_schedule` call and the store after any `claim_vested` call
(successful or failed, any caller, any arguments) still satisfy it. -/
theorem mutations_preserve_claimed_le_total (store : Store)
    (hinv : ClaimedLeTotal store) (owner caller ben : Addr) (total : Nat)
    (tstart tend tnow : Nat) :
    ClaimedLeTotal
        (create_vesting_schedule owner caller store ben total tstart tend).2
    ∧ ClaimedLeTotal (claim_vested store caller tnow).2 := by
  constructor
  · intro a s hs
    by_cases hc : caller ≠ owner
    · rw [create_vesting_schedule, if_pos hc] at hs
      exact hinv a s hs
    · rw [create_vesting_schedule, if_neg hc] at hs
      by_cases ht : tstart ≥ tend
      · rw [if_pos ht] at hs
        exact hinv a s hs
      · rw [if_neg ht] at hs
        simp only [Store.insert] at hs
        by_cases ha : a = ben
        · rw [if_pos ha] at hs
          cases hs
          exact Nat.zero_le _
        · rw [if_neg ha] at hs
          exact hinv a s hs
  · intro a s hs
    cases hst : store caller with
    | none =>
      rw [claim_vested, hst] at hs
      exact hinv a s hs
    | some sched =>
      rw [claim_vested_some store caller tnow sched hst] at hs
      by_cases h1 : tnow < sched.start_time
      · rw [if_pos h1] at hs
        exact hinv a s hs
      · simp only [if_neg h1] at hs
        by_cases h2 :
            calculate_vested_amount sched tnow - sched.claimed_amount = 0
        · rw [if_pos h2] at hs
          exact hinv a s hs
        · rw [if_neg h2] at hs
          simp only [Store.insert] at hs
          by_cases ha : a = caller
          · rw [if_pos ha] at hs
            cases hs
            have hv := calculate_vested_amount_le_total sched tnow
            simp only [min_le_iff]
            refine Or.inl ?_
            omega
          · rw [if_neg ha] at hs
            exact hinv a s hs

/-- Witness for C4: the invariant holds of the empty store and is preserved by
a concrete creation and a concrete claim. -/
theorem mutations_preserve_claimed_le_total_witness :
    ClaimedLeTotal (create_vesting_schedule 0 0 (fun _ => none) 1 5 0 10).2
    ∧ ClaimedLeTotal (claim_vested (fun _ => none) 0 3).2 :=
  mutations_preserve_claimed_le_total (fun _ => none)
    (fun _ _ hs => by cases hs) 0 0 1 5 0 10 3

/-- C6: on an authorized call, `create_vesting_schedule` returns
`InvalidTimeRange` exactly when `start_time ≥ end_time`, and when
`start_time < end_time` it succeeds and stores for the beneficiary the given
amounts and times with `claimed_amount = 0`, overwriting any prior entry
(the post-store is the overwrite-insert of the new schedule into the
arbitrary prior store). -/
theorem create_vesting_schedule_spec (owner caller ben : Addr) (store : Store)
    (total : Nat) (tstart tend : Nat) (hauth : caller = owner) :
    ((create_vesting_schedule owner caller store ben total tstart tend).1
        = Except.error Error.InvalidTimeRange ↔ tend ≤ tstart)
    ∧ (tstart < tend →
        (create_vesting_schedule owner caller store ben total tstart tend).1
            = Except.ok ()
        ∧ (create_vesting_schedule owner caller store ben total tstart tend).2
            = store.insert ben ⟨total, 0, tstart, tend⟩) := by
  subst hauth
  rw [create_vesting_schedule, if_neg (by simp)]
  by_cases ht : tstart ≥ tend
  · rw [if_pos ht]
    constructor
    · constructor
      · intro _
        exact ht
      · intro _
        rfl
    · intro hlt
      exact absurd hlt (by omega)
  · rw [if_neg ht]
    constructor
    · constructor
      · intro h
        simp at h
      · intro h
        exact absurd h ht
    · intro _
      exact ⟨rfl, rfl⟩

/-- Witness for C6: an authorized creation with a valid range succeeds and
stores the schedule with `claimed_amount = 0`. -/
theorem create_vesting_schedule_spec_witness :
    (create_vesting_schedule 0 0 (fun _ => none) 1 5 2 10).1 = Except.ok ()
    ∧ (create_vesting_schedule 0 0 (fun _ => none) 1 5 2 10).2 1
        = some ⟨5, 0, 2, 10⟩ := by
  have h := (create_vesting_schedule_spec 0 0 1 (fun _ => none) 5 2 10 rfl).2
    (by decide)
  refine ⟨h.1, ?_⟩
  rw [h.2]
  simp [Store.insert]

/-- C9: whenever the caller is not the owner, `create_vesting_schedule`
returns the `Unauthorized` error (a variant distinct from the four errors of
the spec's taxonomy) and leaves the store unchanged; the start and end times
are arbitrary here — in particular the check fires even on an invalid time
range, i.e. before the range validation. -/
theorem create_vesting_schedule_unauthorized (owner caller ben : Addr)
    (store : Store) (total : Nat) (tstart tend : Nat)
    (h : caller ≠ owner) :
    (create_vesting_schedule owner caller store ben total tstart tend).1
        = Except.error Error.Unauthorized
    ∧ (create_vesting_schedule owner caller store ben total tstart tend).2
        = store := by
  rw [create_vesting_schedule, if_pos h]
  exact ⟨rfl, rfl⟩

/-- Witness for C9 at a concrete unauthorized caller and an invalid time
range (`start ≥ end`), showing the authorization check precedes range
validation. -/
theorem create_vesting_schedule_unauthorized_witness :
    (create_vesting_schedule 0 1 (fun _ => none) 2 5 10 3).1
        = Except.error Error.Unauthorized :=
  (create_vesting_schedule_unauthorized 0 1 2 (fun _ => none) 5 10 3
    (by decide)).1

end VestingScheduler

namespace VestingScheduler

theorem claimed_update_start (s : VestingSchedule) (x : Nat) :
    ({ s with claimed_amount := x } : VestingSchedule).start_time
      = s.start_time := rfl

theorem claimed_update_claimed (s : VestingSchedule) (x : Nat) :
    ({ s with claimed_amount := x } : VestingSchedule).claimed_amount = x := rfl

/-- The saturating new `claimed_amount` written by a successful claim. -/
def bumped_claimed (s : VestingSchedule) (tnow : Nat) : Nat :=
  min (s.claimed_amount + (calculate_vested_amount s tnow - s.claimed_amount))
    U128_MAX

/-- Exhaustive description of one `claim_vested` call: either it returns an
error and the untouched store, or the caller had a schedule with a nonzero
claimable amount and the only change is the saturating bump of that
schedule's `claimed_amount`. -/
theorem claim_vested_cases (store : Store) (caller : Addr) (tnow : Nat) :
    (∃ e, claim_vested store caller tnow = (Except.error e, store))
    ∨ ∃ s, store caller = some s
        ∧ calculate_vested_amount s tnow - s.claimed_amount ≠ 0
        ∧ claim_vested store caller tnow
          = (Except.ok (calculate_vested_amount s tnow - s.claimed_amount),
             store.insert caller
               { s with claimed_amount := bumped_claimed s tnow }) := by
  cases hst : store caller with
  | none =>
    refine Or.inl ⟨Error.NoVestingSchedule, ?_⟩
    rw [claim_vested, hst]
  | some sched =>
    by_cases h1 : tnow < sched.start_time
    · refine Or.inl ⟨Error.VestingNotStarted, ?_⟩
      rw [claim_vested_some store caller tnow sched hst, if_pos h1]
    · by_cases h2 :
          calculate_vested_amount sched tnow - sched.claimed_amount = 0
      · refine Or.inl ⟨Error.NoTokensAvailable, ?_⟩
        rw [claim_vested_some store caller tnow sched hst, if_neg h1]
        simp [h2]
      · refine Or.inr ⟨sched, rfl, h2, ?_⟩
        rw [claim_vested_some store caller tnow sched hst, if_neg h1]
        simp [h2, bumped_claimed]

/-- A claim with nothing claimable fails with `NoTokensAvailable` and leaves
the store untouched. -/
theorem claim_vested_noop (store : Store) (caller : Addr) (tnow : Nat)
    (s : VestingSchedule) (hs : store caller = some s)
    (hstart : s.start_time ≤ tnow)
    (hcl : calculate_vested_amount s tnow - s.claimed_amount = 0) :
    claim_vested store caller tnow
      = (Except.error Error.NoTokensAvailable, store) := by
  rw [claim_vested_some store caller tnow s hs, if_neg (by omega)]
  simp [hcl]

/-- C7: if the caller's stored schedule has its `total_amount` in the `u128`
range, `now` is not before `start_time`, and a first `claim_vested` at `now`
succeeds, then a second `claim_vested` at the same `now` on the resulting
store returns `NoTokensAvailable` and leaves the store unchanged. -/
theorem claim_vested_idempotent (store : Store) (caller : Addr) (tnow : Nat)
    (s : VestingSchedule) (hs : store caller = some s)
    (htot : s.total_amount ≤ U128_MAX) (hstart : s.start_time ≤ tnow)
    (b : Nat) (hok : (claim_vested store caller tnow).1 = Except.ok b) :
    (claim_vested (claim_vested store caller tnow).2 caller tnow).1
        = Except.error Error.NoTokensAvailable
    ∧ (claim_vested (claim_vested store caller tnow).2 caller tnow).2
        = (claim_vested store caller tnow).2 := by
  rcases claim_vested_cases store caller tnow with ⟨e, he⟩ | ⟨s0, hs0, hne, hsucc⟩
  · rw [he] at hok
    simp at hok
  · have hss : s0 = s := Option.some.inj (hs0.symm.trans hs)
    subst hss
    have hv := calculate_vested_amount_le_total s0 tnow
    have hmin : bumped_claimed s0 tnow = calculate_vested_amount s0 tnow := by
      rw [bumped_claimed, min_eq_left (by omega)]
      omega
    have hnoop := claim_vested_noop
      ((claim_vested store caller tnow).2) caller tnow
      { s0 with claimed_amount := bumped_claimed s0 tnow }
      (by rw [hsucc]; simp [Store.insert])
      (by rw [claimed_update_start]; exact hstart)
      (by rw [calculate_vested_amount_claimed_irrel, claimed_update_claimed,
            hmin]; omega)
    rw [hnoop]
    exact ⟨rfl, rfl⟩

/-- Witness for C7: beneficiary 0 with schedule `total = 100`, window
`[0, 10)`, claiming twice at time 5. -/
theorem claim_vested_idempotent_witness :
    (claim_vested
        (claim_vested (fun a => if a = 0 then some ⟨100, 0, 0, 10⟩ else none)
          0 5).2 0 5).1
      = Except.error Error.NoTokensAvailable :=
  (claim_vested_idempotent
    (fun a => if a = 0 then some ⟨100, 0, 0, 10⟩ else none) 0 5
    ⟨100, 0, 0, 10⟩ rfl (by decide) (by decide) 50 (by rfl)).1

/-- C10: `claim_vested` changes nothing outside the caller's own entry; when
it returns any error the whole store is unchanged; a pre-existing entry for
the caller is still present afterwards with the same `total_amount`,
`start_time` and `end_time` (only `claimed_amount` may differ); and no entry
is created for a caller who had none. -/
theorem claim_vested_frame (store : Store) (caller : Addr) (tnow : Nat) :
    (∀ a, a ≠ caller → (claim_vested store caller tnow).2 a = store a)
    ∧ (∀ e, (claim_vested store caller tnow).1 = Except.error e
        → (claim_vested store caller tnow).2 = store)
    ∧ (∀ s0, store caller = some s0
        → ∃ s, (claim_vested store caller tnow).2 caller = some s
            ∧ s.total_amount = s0.total_amount
            ∧ s.start_time = s0.start_time
            ∧ s.end_time = s0.end_time)
    ∧ (store caller = none
        → (claim_vested store caller tnow).2 caller = none) := by
  rcases claim_vested_cases store caller tnow with ⟨e, he⟩ | ⟨s0, hs0, hne, hsucc⟩
  · rw [he]
    exact ⟨fun _ _ => rfl, fun _ _ => rfl,
      fun s0 h0 => ⟨s0, h0, rfl, rfl, rfl⟩, fun h => h⟩
  · rw [hsucc]
    refine ⟨?_, ?_, ?_, ?_⟩
    · intro a ha
      simp [Store.insert, ha]
    · intro e he
      simp at he
    · intro s1 h1
      have hss : s1 = s0 := Option.some.inj (h1.symm.trans hs0)
      subst hss
      refine ⟨{ s1 with claimed_amount := bumped_claimed s1 tnow }, ?_,
        rfl, rfl, rfl⟩
      simp [Store.insert]
    · intro h
      rw [h] at hs0
      cases hs0

/-- Witness for C10 on a concrete store: an address other than the caller is
untouched by a claim. -/
theorem claim_vested_frame_witness :
    (claim_vested (fun _ => none) 0 0).2 1 = none := by
  have h := (claim_vested_frame (fun _ => none) 0 0).1 1 (by decide)
  simpa using h

end VestingScheduler
